import Mathlib

/-!
Shallow embedding of the configuration core of the terraform-provider-freeipa
repository: configuration resolution, mode validation, keytab materialization
and the connection bootstrap, as implemented in
`internal/provider/provider.go` (`Configure`, `openKeytabReader`,
`compactBase64Whitespace`).
-/

namespace FreeIPA

/-- The raw configuration block; each field is tri-state (unset = `none`,
explicitly set = `some v`), mirroring `Model` in provider.go where every
attribute is optional and `IsNull` distinguishes unset from set. -/
structure Model where
  host : Option String
  username : Option String
  password : Option String
  insecureSkipVerify : Option Bool
  kerberosEnabled : Option Bool
  kerberosPrincipal : Option String
  kerberosRealm : Option String
  krb5ConfPath : Option String
  keytabPath : Option String
  keytabBase64 : Option String
deriving DecidableEq

/-- The fully merged configuration snapshot used after resolution in
`Configure` (the local variables `host`, `username`, ... at provider.go
lines 110-167). -/
structure Resolved where
  host : String
  username : String
  password : String
  insecureSkipVerify : Bool
  kerberosEnabled : Bool
  kerberosPrincipal : String
  kerberosRealm : String
  krb5ConfPath : String
  keytabPath : String
  keytabBase64 : String
deriving DecidableEq

/-- Configuration resolution, translated line by line from provider.go
lines 110-167: each field starts from the environment variable (or the
`false` literal for booleans), the defaulted paths fall back to conventional
locations when the environment is empty, and an explicitly set raw value
overrides everything.  `env` is the process environment (`os.Getenv`). -/
def resolve (cfg : Model) (env : String → String) : Resolved :=
  let host := env "FREEIPA_HOST"
  let host := match cfg.host with | some v => v | none => host
  let username := env "FREEIPA_USERNAME"
  let username := match cfg.username with | some v => v | none => username
  let password := env "FREEIPA_PASSWORD"
  let password := match cfg.password with | some v => v | none => password
  let insecureSkipVerify := false
  let insecureSkipVerify :=
    match cfg.insecureSkipVerify with
    | some v => v
    | none => insecureSkipVerify
  let kerberosEnabled := false
  let kerberosEnabled :=
    match cfg.kerberosEnabled with
    | some v => v
    | none =>
      if env "FREEIPA_KERBEROS_ENABLED" = "true" then true else kerberosEnabled
  let kerberosPrincipal := env "FREEIPA_KERBEROS_PRINCIPAL"
  let kerberosPrincipal :=
    match cfg.kerberosPrincipal with | some v => v | none => kerberosPrincipal
  let kerberosRealm := env "FREEIPA_KERBEROS_REALM"
  let kerberosRealm :=
    match cfg.kerberosRealm with | some v => v | none => kerberosRealm
  let krb5ConfPath := env "FREEIPA_KRB5_CONF"
  let krb5ConfPath := if krb5ConfPath = "" then "/etc/krb5.conf" else krb5ConfPath
  let krb5ConfPath :=
    match cfg.krb5ConfPath with | some v => v | none => krb5ConfPath
  let keytabPath := env "FREEIPA_KEYTAB"
  let keytabPath := if keytabPath = "" then "/etc/krb5.keytab" else keytabPath
  let keytabPath :=
    match cfg.keytabPath with | some v => v | none => keytabPath
  let keytabBase64 := env "FREEIPA_KEYTAB_BASE64"
  let keytabBase64 :=
    match cfg.keytabBase64 with | some v => v | none => keytabBase64
  { host := host, username := username, password := password,
    insecureSkipVerify := insecureSkipVerify,
    kerberosEnabled := kerberosEnabled,
    kerberosPrincipal := kerberosPrincipal, kerberosRealm := kerberosRealm,
    krb5ConfPath := krb5ConfPath, keytabPath := keytabPath,
    keytabBase64 := keytabBase64 }

/-- One field-scoped missing-field violation; each constructor corresponds
to one `AddAttributeError` call in provider.go lines 169-209 (field and
summary identify the call site). -/
inductive Violation where
  | missingHost
  | missingKeytabInfo
  | missingPrincipal
  | missingRealm
  | missingKeytabPath
  | missingUsername
  | missingPassword
deriving DecidableEq

/-- The validation phase of `Configure` (provider.go lines 169-209): the
ordered list of attribute errors appended to the diagnostics, in source
order.  Never short-circuits; every unmet rule contributes its own entry. -/
def validate (c : Resolved) : List Violation :=
  (if c.host = "" then [Violation.missingHost] else []) ++
  (if c.kerberosEnabled then
    (if c.keytabBase64 = "" ∧ c.keytabPath = "" then
      [Violation.missingKeytabInfo] else []) ++
    (if c.kerberosPrincipal = "" then [Violation.missingPrincipal] else []) ++
    (if c.kerberosRealm = "" then [Violation.missingRealm] else []) ++
    (if c.keytabPath = "" then [Violation.missingKeytabPath] else [])
  else
    (if c.username = "" then [Violation.missingUsername] else []) ++
    (if c.password = "" then [Violation.missingPassword] else []))

/-- The six whitespace byte values stripped by `compactBase64Whitespace`
(provider.go line 332/338): newline, carriage return, tab, vertical tab,
form feed, space. -/
def isB64Ws (c : Char) : Bool :=
  c = '\n' || c = '\r' || c = '\t' || c = '\x0b' || c = '\x0c' || c = ' '

/-- `compactBase64Whitespace` (provider.go lines 329-347): scan for a
whitespace byte; if one occurs anywhere, rebuild the string keeping only
non-whitespace bytes, otherwise return the input unchanged (the fast
path).  The Go code iterates over bytes; all six whitespace characters are
single-byte ASCII, so the per-character model coincides with it. -/
def compactBase64Whitespace (s : String) : String :=
  if s.data.any isB64Ws then
    String.mk (s.data.filter (fun c => !isB64Ws c))
  else
    s

/-- Value of one character in the standard base64 alphabet used by
`base64.StdEncoding` (A-Z, a-z, 0-9, +, /); `none` for characters outside
the alphabet. -/
def b64Val (c : Char) : Option Nat :=
  if 'A' ≤ c ∧ c ≤ 'Z' then some (c.toNat - 'A'.toNat)
  else if 'a' ≤ c ∧ c ≤ 'z' then some (c.toNat - 'a'.toNat + 26)
  else if '0' ≤ c ∧ c ≤ '9' then some (c.toNat - '0'.toNat + 52)
  else if c = '+' then some 62
  else if c = '/' then some 63
  else none

/-- `base64.StdEncoding.DecodeString`: standard alphabet, padding required,
input length a multiple of four; four input characters yield three bytes,
with `==` / `=` padding allowed only in the final quantum.  Any malformed
input yields `none` (Go returns a `CorruptInputError`). -/
def decodeB64 : List Char → Option (List Nat)
  | [] => some []
  | a :: b :: c :: d :: rest =>
    match b64Val a, b64Val b with
    | some va, some vb =>
      if c = '=' then
        if d = '=' ∧ rest = [] then
          some [va * 4 + vb / 16]
        else
          none
      else
        match b64Val c with
        | some vc =>
          if d = '=' then
            if rest = [] then
              some [va * 4 + vb / 16, vb % 16 * 16 + vc / 4]
            else
              none
          else
            match b64Val d with
            | some vd =>
              match decodeB64 rest with
              | some tail =>
                some ((va * 4 + vb / 16) :: (vb % 16 * 16 + vc / 4) ::
                      (vc % 4 * 64 + vd) :: tail)
              | none => none
            | none => none
        | none => none
    | _, _ => none
  | _ => none

/-- The base64 branch of the keytab materializer as one function: compact
whitespace, then decode (provider.go lines 310-311). -/
def decodeKeytabBase64 (s : String) : Option (List Nat) :=
  decodeB64 (compactBase64Whitespace s).data

/-- The readable stream handed back by the materializer: either an
in-memory reader over decoded bytes (`io.NopCloser(bytes.NewReader(...))`)
or an opened file. -/
inductive Reader where
  | bytes (data : List Nat)
  | file (path : String)
deriving DecidableEq

/-- `openKeytabReader` (provider.go lines 308-327).  `fs` models the
filesystem seen by `os.Open`: `some contents` when the file at a path can
be opened, `none` when opening fails with "no such file or directory".
If `b64` is non-empty the base64 branch runs and neither `path` nor `fs`
is consulted; an empty `path` is its own error; otherwise the file is
opened.  Error strings carry the Go error messages. -/
def openKeytabReader (fs : String → Option (List Nat)) (path b64 : String) :
    Except String Reader :=
  if b64 ≠ "" then
    match decodeKeytabBase64 b64 with
    | some decoded => Except.ok (Reader.bytes decoded)
    | none =>
      Except.error "failed to decode keytab_base64: illegal base64 data"
  else if path = "" then
    Except.error "keytab_path is empty"
  else
    match fs path with
    | some _ => Except.ok (Reader.file path)
    | none => Except.error ("open " ++ path ++ ": no such file or directory")

/-- File accesses performed by `openKeytabReader`: exactly one `os.Open`
when the path branch is reached, none in the base64 or empty-path
branches. -/
def keytabOpenPaths (path b64 : String) : List String :=
  if b64 ≠ "" then []
  else if path = "" then []
  else [path]

/-- Observable side effects of one `Configure` attempt: file opens, the two
Directory Client connect calls, and the `tflog.Info` event emitted on
success (provider.go lines 259-263, which records exactly host, username
and the kerberos flag). -/
inductive Effect where
  | openFile (path : String)
  | connectKerberos (host principal realm : String) (insecure : Bool)
  | connectPassword (host username password : String) (insecure : Bool)
  | logInfo (host username : String) (kerberosEnabled : Bool)
deriving DecidableEq

/-- One entry of `resp.Diagnostics`: either a field-scoped validation
violation (`AddAttributeError`) or a later fatal error (`AddError`). -/
inductive Diag where
  | violation (v : Violation)
  | fatal (summary detail : String)
deriving DecidableEq

/-- An opaque connected client handle (`*freeipa.Client`). -/
structure Client where
  id : Nat
deriving DecidableEq

/-- The external world of one `Configure` run: the filesystem seen by
`os.Open`, and the Directory Client connect operations
(`freeipa.ConnectWithKerberos`, `freeipa.Connect`), each returning either a
handle or an error message. -/
structure World where
  fs : String → Option (List Nat)
  connectWithKerberos :
    String → String → String → Bool → Reader → Except String Client
  connect : String → String → String → Bool → Except String Client

/-- Outcome of one `Configure` run: the diagnostics collection, the ordered
trace of observable effects, and the client handle stored in `p.client`
(absent whenever `Configure` returned early). -/
structure ConfigureResult where
  diags : List Diag
  effects : List Effect
  client : Option Client
deriving DecidableEq

/-- `Configure` (provider.go lines 101-264) after the raw config has been
read: resolve, validate, and return early on any validation error before
any I/O; otherwise in kerberos mode open the krb5 config, materialize the
keytab and connect with Kerberos, else connect with username/password; on
success emit the informational event. -/
def configure (cfg : Model) (env : String → String) (w : World) :
    ConfigureResult :=
  let r := resolve cfg env
  let v := validate r
  if v = [] then
    if r.kerberosEnabled then
      match w.fs r.krb5ConfPath with
      | none =>
        { diags := [Diag.fatal "Failed to open krb5.conf"
            ("Reason: open " ++ r.krb5ConfPath ++ ": no such file or directory")],
          effects := [Effect.openFile r.krb5ConfPath],
          client := none }
      | some _ =>
        match openKeytabReader w.fs r.keytabPath r.keytabBase64 with
        | Except.error e =>
          { diags := [Diag.fatal "Failed to load keytab" ("Reason: " ++ e)],
            effects := Effect.openFile r.krb5ConfPath ::
              (keytabOpenPaths r.keytabPath r.keytabBase64).map Effect.openFile,
            client := none }
        | Except.ok reader =>
          match w.connectWithKerberos r.host r.kerberosPrincipal r.kerberosRealm
              r.insecureSkipVerify reader with
          | Except.error e =>
            { diags := [Diag.fatal "Failed to connect to FreeIPA" ("Reason: " ++ e)],
              effects := Effect.openFile r.krb5ConfPath ::
                (keytabOpenPaths r.keytabPath r.keytabBase64).map Effect.openFile ++
                [Effect.connectKerberos r.host r.kerberosPrincipal r.kerberosRealm
                  r.insecureSkipVerify],
              client := none }
          | Except.ok c =>
            { diags := [],
              effects := Effect.openFile r.krb5ConfPath ::
                (keytabOpenPaths r.keytabPath r.keytabBase64).map Effect.openFile ++
                [Effect.connectKerberos r.host r.kerberosPrincipal r.kerberosRealm
                  r.insecureSkipVerify,
                 Effect.logInfo r.host r.username r.kerberosEnabled],
              client := some c }
    else
      match w.connect r.host r.username r.password r.insecureSkipVerify with
      | Except.error e =>
        { diags := [Diag.fatal "Failed to connect to FreeIPA" ("Reason: " ++ e)],
          effects := [Effect.connectPassword r.host r.username r.password
            r.insecureSkipVerify],
          client := none }
      | Except.ok c =>
        { diags := [],
          effects := [Effect.connectPassword r.host r.username r.password
              r.insecureSkipVerify,
            Effect.logInfo r.host r.username r.kerberosEnabled],
          client := some c }
  else
    { diags := v.map Diag.violation, effects := [], client := none }

/-- Selects the informational log events from an effect trace. -/
def isLogInfo : Effect → Bool
  | Effect.logInfo _ _ _ => true
  | _ => false

/-- `InsertedWs s t` holds when `t` arises from `s` by inserting characters
from the stripped whitespace set at arbitrary positions. -/
inductive InsertedWs : List Char → List Char → Prop where
  | nil : InsertedWs [] []
  | keep (c : Char) {s t : List Char} :
      InsertedWs s t → InsertedWs (c :: s) (c :: t)
  | ws (c : Char) {s t : List Char} :
      isB64Ws c = true → InsertedWs s t → InsertedWs s (c :: t)

/-! ## Helper lemmas -/

/-- The whitespace-compaction function always equals the plain filter: the
fast path (returning the input unchanged when no whitespace occurs) agrees
with filtering. -/
theorem compact_eq_filter (s : String) :
    compactBase64Whitespace s = String.mk (s.data.filter fun c => !isB64Ws c) := by
  unfold compactBase64Whitespace
  split
  · rfl
  · rename_i h
    have hall : ∀ c ∈ s.data, isB64Ws c = false := by
      intro c hc
      by_contra hb
      exact h (List.any_eq_true.mpr ⟨c, hc, by simpa using hb⟩)
    have : s.data.filter (fun c => !isB64Ws c) = s.data :=
      List.filter_eq_self.mpr (fun c hc => by simp [hall c hc])
    rw [this]

/-- Filtering the whitespace set out of a list that had whitespace inserted
recovers the filter of the original list. -/
theorem insertedWs_filter {s t : List Char} (h : InsertedWs s t) :
    t.filter (fun c => !isB64Ws c) = s.filter (fun c => !isB64Ws c) := by
  induction h with
  | nil => rfl
  | keep c _ ih => simp [List.filter_cons, ih]
  | ws c hc _ ih => simp [List.filter_cons, hc, ih]

/-! ## Claim C1 -/

/-- A kerberos-mode configuration with non-empty host and empty principal,
realm and both keytab fields. -/
def c1Config : Resolved :=
  { host := "ipa.example.test", username := "", password := "",
    insecureSkipVerify := false, kerberosEnabled := true,
    kerberosPrincipal := "", kerberosRealm := "",
    krb5ConfPath := "/etc/krb5.conf", keytabPath := "", keytabBase64 := "" }

/-- Claim C1, counterexample: a kerberos-mode configuration with non-empty
host and empty principal, realm, keytab path and keytab base64 produces
four violations, not the claimed exactly three — the standalone
keytab-path rule fires in addition to the keytab-presence, principal and
realm rules. -/
theorem validate_three_violations_counterexample :
    c1Config.kerberosEnabled = true ∧ c1Config.host ≠ "" ∧
    c1Config.kerberosPrincipal = "" ∧ c1Config.kerberosRealm = "" ∧
    c1Config.keytabPath = "" ∧ c1Config.keytabBase64 = "" ∧
    (validate c1Config).length ≠ 3 := by
  decide

/-- Claim C1 (amended): for every resolved configuration in kerberos mode
with non-empty host whose principal, realm, keytab path and keytab base64
are all empty, validation yields exactly four violations, in source order:
keytab presence, principal, realm, and the standalone keytab path rule. -/
theorem validate_kerberos_all_missing (c : Resolved)
    (hk : c.kerberosEnabled = true) (hh : c.host ≠ "")
    (hp : c.kerberosPrincipal = "") (hr : c.kerberosRealm = "")
    (ht : c.keytabPath = "") (hb : c.keytabBase64 = "") :
    validate c = [Violation.missingKeytabInfo, Violation.missingPrincipal,
      Violation.missingRealm, Violation.missingKeytabPath] := by
  simp [validate, hk, hh, hp, hr, ht, hb]

/-- Claim C1 witness: the amended statement evaluated on the concrete
configuration above. -/
theorem validate_kerberos_all_missing_witness :
    validate c1Config = [Violation.missingKeytabInfo,
      Violation.missingPrincipal, Violation.missingRealm,
      Violation.missingKeytabPath] :=
  validate_kerberos_all_missing c1Config rfl (by decide) rfl rfl rfl rfl

/-! ## Claim C2 -/

/-- Claim C2: with kerberos enabled and an (explicitly) empty keytab path,
validation emits the standalone keytab-path violation even when the
keytab base64 text is non-empty — and it is that standalone rule, not the
keytab-presence rule, that rejects a base64-only configuration. -/
theorem validate_keytab_path_standalone (c : Resolved)
    (hk : c.kerberosEnabled = true) (ht : c.keytabPath = "")
    (hb : c.keytabBase64 ≠ "") :
    Violation.missingKeytabPath ∈ validate c ∧
    Violation.missingKeytabInfo ∉ validate c := by
  simp [validate, hk, ht, hb]

/-- A base64-only kerberos configuration: keytab path explicitly empty,
keytab base64 non-empty, everything else required present. -/
def c2Config : Resolved :=
  { host := "ipa.example.test", username := "", password := "",
    insecureSkipVerify := false, kerberosEnabled := true,
    kerberosPrincipal := "admin", kerberosRealm := "EXAMPLE.TEST",
    krb5ConfPath := "/etc/krb5.conf", keytabPath := "",
    keytabBase64 := "BQIAAABH" }

/-- Claim C2 witness: the base64-only configuration above is rejected by
the standalone keytab-path rule. -/
theorem validate_keytab_path_standalone_witness :
    Violation.missingKeytabPath ∈ validate c2Config ∧
    Violation.missingKeytabInfo ∉ validate c2Config :=
  validate_keytab_path_standalone c2Config rfl rfl (by decide)

/-! ## Claim C3 -/

/-- Claim C3: when the base64 text is non-empty, the materializer's result
is a function of the base64 text alone — it is unchanged under any change
of the path and of the entire filesystem (so no file is ever opened), and
its file-access set is empty. -/
theorem openKeytabReader_base64_precedence :
    ∀ (fs fs' : String → Option (List Nat)) (path path' b64 : String),
      b64 ≠ "" →
      openKeytabReader fs path b64 = openKeytabReader fs' path' b64 ∧
      keytabOpenPaths path b64 = [] := by
  intro fs fs' path path' b64 hb
  simp [openKeytabReader, keytabOpenPaths, hb]

/-- A filesystem with one keytab file present. -/
def c3Fs : String → Option (List Nat) :=
  fun p => if p = "/etc/krb5.keytab" then some [5, 2] else none

/-- Claim C3 witness: with non-empty base64 text the result over a
filesystem that has the keytab file and a path pointing at it equals the
result over an empty filesystem and a different path, and no path is
opened. -/
theorem openKeytabReader_base64_precedence_witness :
    openKeytabReader c3Fs "/etc/krb5.keytab" "BQIAAABH" =
      openKeytabReader (fun _ => none) "/other/path" "BQIAAABH" ∧
    keytabOpenPaths "/etc/krb5.keytab" "BQIAAABH" = [] :=
  openKeytabReader_base64_precedence c3Fs (fun _ => none)
    "/etc/krb5.keytab" "/other/path" "BQIAAABH" (by decide)

/-! ## Claim C4 -/

/-- Claim C4: keytab base64 decoding (whitespace compaction followed by
standard decoding) is insensitive to inserting any of the six stripped
whitespace characters at any positions; in particular the newline- and
space-corrupted variants of "BQIAAABH" decode to the same bytes, namely
the bytes 5, 2, 0, 0, 0, 71. -/
theorem decodeKeytabBase64_ws_insensitive :
    (∀ s t : String, InsertedWs s.data t.data →
      decodeKeytabBase64 t = decodeKeytabBase64 s) ∧
    decodeKeytabBase64 "BQIA\nAABH" = decodeKeytabBase64 "BQIAAABH" ∧
    decodeKeytabBase64 "BQIA AABH" = decodeKeytabBase64 "BQIAAABH" ∧
    decodeKeytabBase64 "BQIAAABH" = some [5, 2, 0, 0, 0, 71] := by
  refine ⟨fun s t h => ?_, by decide, by decide, by decide⟩
  unfold decodeKeytabBase64
  rw [compact_eq_filter, compact_eq_filter]
  show decodeB64 (t.data.filter fun c => !isB64Ws c) =
    decodeB64 (s.data.filter fun c => !isB64Ws c)
  rw [insertedWs_filter h]

/-- Claim C4 witness: the general insensitivity statement applied to the
concrete insertion of a newline into "BQIAAABH". -/
theorem decodeKeytabBase64_ws_insensitive_witness :
    decodeKeytabBase64 "BQIA\nAABH" = decodeKeytabBase64 "BQIAAABH" :=
  decodeKeytabBase64_ws_insensitive.1 "BQIAAABH" "BQIA\nAABH"
    (InsertedWs.keep 'B' (InsertedWs.keep 'Q' (InsertedWs.keep 'I'
      (InsertedWs.keep 'A' (InsertedWs.ws '\n' rfl
        (InsertedWs.keep 'A' (InsertedWs.keep 'A' (InsertedWs.keep 'B'
          (InsertedWs.keep 'H' InsertedWs.nil)))))))))

/-! ## Claim C5 -/

/-- Claim C5: per-field precedence of resolution — an explicitly-set raw
value always wins; when the raw value is unset, the named environment
variable is used (the kerberos flag via the exact "true" comparison, with
default `false`); and for the two defaulted paths the environment variable
wins over the built-in default, which applies only when the environment
value is empty.  The insecure flag has no environment variable and
defaults to `false`. -/
theorem resolve_precedence :
    ∀ (cfg : Model) (env : String → String),
      (∀ v, cfg.host = some v → (resolve cfg env).host = v) ∧
      (cfg.host = none → (resolve cfg env).host = env "FREEIPA_HOST") ∧
      (∀ v, cfg.username = some v → (resolve cfg env).username = v) ∧
      (cfg.username = none →
        (resolve cfg env).username = env "FREEIPA_USERNAME") ∧
      (∀ v, cfg.password = some v → (resolve cfg env).password = v) ∧
      (cfg.password = none →
        (resolve cfg env).password = env "FREEIPA_PASSWORD") ∧
      (∀ v, cfg.insecureSkipVerify = some v →
        (resolve cfg env).insecureSkipVerify = v) ∧
      (cfg.insecureSkipVerify = none →
        (resolve cfg env).insecureSkipVerify = false) ∧
      (∀ v, cfg.kerberosEnabled = some v →
        (resolve cfg env).kerberosEnabled = v) ∧
      (cfg.kerberosEnabled = none →
        (resolve cfg env).kerberosEnabled =
          (if env "FREEIPA_KERBEROS_ENABLED" = "true" then true else false)) ∧
      (∀ v, cfg.kerberosPrincipal = some v →
        (resolve cfg env).kerberosPrincipal = v) ∧
      (cfg.kerberosPrincipal = none →
        (resolve cfg env).kerberosPrincipal =
          env "FREEIPA_KERBEROS_PRINCIPAL") ∧
      (∀ v, cfg.kerberosRealm = some v →
        (resolve cfg env).kerberosRealm = v) ∧
      (cfg.kerberosRealm = none →
        (resolve cfg env).kerberosRealm = env "FREEIPA_KERBEROS_REALM") ∧
      (∀ v, cfg.krb5ConfPath = some v →
        (resolve cfg env).krb5ConfPath = v) ∧
      (cfg.krb5ConfPath = none → env "FREEIPA_KRB5_CONF" ≠ "" →
        (resolve cfg env).krb5ConfPath = env "FREEIPA_KRB5_CONF") ∧
      (cfg.krb5ConfPath = none → env "FREEIPA_KRB5_CONF" = "" →
        (resolve cfg env).krb5ConfPath = "/etc/krb5.conf") ∧
      (∀ v, cfg.keytabPath = some v → (resolve cfg env).keytabPath = v) ∧
      (cfg.keytabPath = none → env "FREEIPA_KEYTAB" ≠ "" →
        (resolve cfg env).keytabPath = env "FREEIPA_KEYTAB") ∧
      (cfg.keytabPath = none → env "FREEIPA_KEYTAB" = "" →
        (resolve cfg env).keytabPath = "/etc/krb5.keytab") ∧
      (∀ v, cfg.keytabBase64 = some v →
        (resolve cfg env).keytabBase64 = v) ∧
      (cfg.keytabBase64 = none →
        (resolve cfg env).keytabBase64 = env "FREEIPA_KEYTAB_BASE64") := by
  intro cfg env
  refine ⟨fun v h => by simp [resolve, h], fun h => by simp [resolve, h],
    fun v h => by simp [resolve, h], fun h => by simp [resolve, h],
    fun v h => by simp [resolve, h], fun h => by simp [resolve, h],
    fun v h => by simp [resolve, h], fun h => by simp [resolve, h],
    fun v h => by simp [resolve, h], fun h => by simp [resolve, h],
    fun v h => by simp [resolve, h], fun h => by simp [resolve, h],
    fun v h => by simp [resolve, h], fun h => by simp [resolve, h],
    fun v h => by simp [resolve, h], fun h h2 => by simp [resolve, h, h2],
    fun h h2 => by simp [resolve, h, h2],
    fun v h => by simp [resolve, h], fun h h2 => by simp [resolve, h, h2],
    fun h h2 => by simp [resolve, h, h2],
    fun v h => by simp [resolve, h], fun h => by simp [resolve, h]⟩

/-- Raw configuration with the host set explicitly and everything else
unset. -/
def c5ConfigExplicit : Model :=
  { host := some "ipa1", username := none, password := none,
    insecureSkipVerify := none, kerberosEnabled := none,
    kerberosPrincipal := none, kerberosRealm := none, krb5ConfPath := none,
    keytabPath := none, keytabBase64 := none }

/-- The same raw configuration with the explicit host cleared. -/
def c5ConfigUnset : Model :=
  { c5ConfigExplicit with host := none }

/-- Environment carrying a competing host value. -/
def c5Env : String → String :=
  fun k => if k = "FREEIPA_HOST" then "ipa2" else ""

/-- Claim C5 witness: explicit "ipa1" beats environment "ipa2"; clearing
the explicit value resolves to "ipa2". -/
theorem resolve_precedence_witness :
    (resolve c5ConfigExplicit c5Env).host = "ipa1" ∧
    (resolve c5ConfigUnset c5Env).host = "ipa2" :=
  ⟨(resolve_precedence c5ConfigExplicit c5Env).1 "ipa1" rfl,
   by
    have h := (resolve_precedence c5ConfigUnset c5Env).2.1 rfl
    simpa using h⟩

/-! ## Claim C6 -/

/-- Claim C6: if validation of the resolved configuration produces any
violation, `Configure` performs no file I/O and no connection attempt and
stores no client handle (empty effect trace, no client), and the surfaced
diagnostics are exactly the complete ordered violation list — all
missing-field violations together, never just the first; and whenever a
client handle is produced, the diagnostics are empty — a usable handle or
nothing. -/
theorem configure_validation_gate :
    ∀ (cfg : Model) (env : String → String) (w : World),
      (validate (resolve cfg env) ≠ [] →
        (configure cfg env w).effects = [] ∧
        (configure cfg env w).client = none ∧
        (configure cfg env w).diags =
          (validate (resolve cfg env)).map Diag.violation) ∧
      ((configure cfg env w).client.isSome = true →
        (configure cfg env w).diags = []) := by
  intro cfg env w
  constructor
  · intro hv
    simp [configure, hv]
  · simp only [configure]
    repeat' split
    all_goals simp

/-- A raw configuration leaving everything unset. -/
def c6Config : Model :=
  { host := none, username := none, password := none,
    insecureSkipVerify := none, kerberosEnabled := none,
    kerberosPrincipal := none, kerberosRealm := none, krb5ConfPath := none,
    keytabPath := none, keytabBase64 := none }

/-- A world whose filesystem is empty and whose connect operations fail. -/
def c6World : World :=
  { fs := fun _ => none,
    connectWithKerberos := fun _ _ _ _ _ => Except.error "unreachable",
    connect := fun _ _ _ _ => Except.error "unreachable" }

/-- Claim C6 witness: with nothing configured (so validation fails on
host, username and password), the run has an empty effect trace, no
client, and surfaces all three violations together. -/
theorem configure_validation_gate_witness :
    ((configure c6Config (fun _ => "") c6World).effects = [] ∧
      (configure c6Config (fun _ => "") c6World).client = none ∧
      (configure c6Config (fun _ => "") c6World).diags =
        (validate (resolve c6Config (fun _ => ""))).map Diag.violation) ∧
    validate (resolve c6Config (fun _ => "")) =
      [Violation.missingHost, Violation.missingUsername,
        Violation.missingPassword] :=
  ⟨(configure_validation_gate c6Config (fun _ => "") c6World).1 (by decide),
   by decide⟩

/-! ## Claim C7 -/

/-- Claim C7: when the kerberos-enabled flag is not explicitly set, the
resolved flag is true exactly when the environment variable equals the
literal string "true"; every other environment text resolves to false. -/
theorem resolve_kerberos_env_truthy :
    ∀ (cfg : Model) (env : String → String), cfg.kerberosEnabled = none →
      ((resolve cfg env).kerberosEnabled = true ↔
        env "FREEIPA_KERBEROS_ENABLED" = "true") := by
  intro cfg env h
  by_cases hT : env "FREEIPA_KERBEROS_ENABLED" = "true" <;>
    simp [resolve, h, hT]

/-- Environment setting the kerberos flag to the given text. -/
def c7Env (text : String) : String → String :=
  fun k => if k = "FREEIPA_KERBEROS_ENABLED" then text else ""

/-- Claim C7 witness: with the flag unset, environment texts "True", "1"
and "yes" resolve to false while "true" resolves to true. -/
theorem resolve_kerberos_env_truthy_witness :
    (resolve c6Config (c7Env "True")).kerberosEnabled = false ∧
    (resolve c6Config (c7Env "1")).kerberosEnabled = false ∧
    (resolve c6Config (c7Env "yes")).kerberosEnabled = false ∧
    (resolve c6Config (c7Env "true")).kerberosEnabled = true := by
  refine ⟨?_, ?_, ?_, ?_⟩
  · have h := resolve_kerberos_env_truthy c6Config (c7Env "True") rfl
    simpa [c7Env] using h
  · have h := resolve_kerberos_env_truthy c6Config (c7Env "1") rfl
    simpa [c7Env] using h
  · have h := resolve_kerberos_env_truthy c6Config (c7Env "yes") rfl
    simpa [c7Env] using h
  · exact (resolve_kerberos_env_truthy c6Config (c7Env "true") rfl).mpr rfl

/-! ## Claim C8 -/

/-- Claim C8: materializing with both path and base64 empty yields the
dedicated empty-path error, whereas a non-empty path naming a file the
filesystem cannot open yields the OS missing-file error; the two error
messages are distinct for every path. -/
theorem openKeytabReader_empty_path_distinct :
    ∀ (fs : String → Option (List Nat)) (p : String), p ≠ "" → fs p = none →
      openKeytabReader fs "" "" = Except.error "keytab_path is empty" ∧
      openKeytabReader fs p "" =
        Except.error ("open " ++ p ++ ": no such file or directory") ∧
      ("keytab_path is empty" : String) ≠
        "open " ++ p ++ ": no such file or directory" := by
  intro fs p hp hfs
  refine ⟨by simp [openKeytabReader], by simp [openKeytabReader, hp, hfs], ?_⟩
  intro h
  have hl := congrArg String.length h
  rw [String.length_append, String.length_append] at hl
  have h1 : ("keytab_path is empty" : String).length = 20 := rfl
  have h2 : ("open " : String).length = 5 := rfl
  have h3 : (": no such file or directory" : String).length = 27 := rfl
  omega

/-- Claim C8 witness: over the empty filesystem, the empty-path error and
the missing-file error for "/nonexistent.keytab" are produced and
differ. -/
theorem openKeytabReader_empty_path_distinct_witness :
    openKeytabReader (fun _ => none) "" "" =
      Except.error "keytab_path is empty" ∧
    openKeytabReader (fun _ => none) "/nonexistent.keytab" "" =
      Except.error "open /nonexistent.keytab: no such file or directory" ∧
    ("keytab_path is empty" : String) ≠
      "open /nonexistent.keytab: no such file or directory" :=
  openKeytabReader_empty_path_distinct (fun _ => none) "/nonexistent.keytab"
    (by decide) rfl

/-! ## Claim C9 -/

/-- File-open effects are never log events. -/
theorem filter_logInfo_openFiles (l : List String) :
    (l.map Effect.openFile).filter isLogInfo = [] := by
  induction l with
  | nil => rfl
  | cons p ps ih => simp [isLogInfo, ih]

/-- On every successful run, the informational events of the trace are
exactly one entry recording host, username and the kerberos flag of the
resolved configuration. -/
theorem configure_success_log (cfg : Model) (env : String → String)
    (w : World) :
    (configure cfg env w).client.isSome = true →
      (configure cfg env w).effects.filter isLogInfo =
        [Effect.logInfo (resolve cfg env).host (resolve cfg env).username
          (resolve cfg env).kerberosEnabled] := by
  simp only [configure]
  repeat' split
  all_goals simp [isLogInfo, filter_logInfo_openFiles]

/-- Claim C9: the informational event emitted on success is a function of
the resolved host, username and kerberos flag only: two successful runs
whose resolved configurations agree on those three fields emit identical
log events, under any variation of password, keytab path, keytab base64,
environment or world. -/
theorem configure_log_event_noninterference :
    ∀ (cfg cfg' : Model) (env env' : String → String) (w w' : World),
      (resolve cfg env).host = (resolve cfg' env').host →
      (resolve cfg env).username = (resolve cfg' env').username →
      (resolve cfg env).kerberosEnabled = (resolve cfg' env').kerberosEnabled →
      (configure cfg env w).client.isSome = true →
      (configure cfg' env' w').client.isSome = true →
      (configure cfg env w).effects.filter isLogInfo =
        (configure cfg' env' w').effects.filter isLogInfo := by
  intro cfg cfg' env env' w w' hh hu hk hs hs'
  rw [configure_success_log cfg env w hs,
    configure_success_log cfg' env' w' hs', hh, hu, hk]

/-- A password-mode raw configuration with password "pw1". -/
def c9ConfigA : Model :=
  { host := some "ipa.example.test", username := some "admin",
    password := some "pw1", insecureSkipVerify := none,
    kerberosEnabled := none, kerberosPrincipal := none,
    kerberosRealm := none, krb5ConfPath := none, keytabPath := none,
    keytabBase64 := none }

/-- The same configuration with a different password and different keytab
fields. -/
def c9ConfigB : Model :=
  { host := some "ipa.example.test", username := some "admin",
    password := some "pw2", insecureSkipVerify := none,
    kerberosEnabled := none, kerberosPrincipal := none,
    kerberosRealm := none, krb5ConfPath := none,
    keytabPath := some "/other.keytab", keytabBase64 := some "BQIAAABH" }

/-- A world whose connect operations always succeed. -/
def c9World : World :=
  { fs := fun _ => none,
    connectWithKerberos := fun _ _ _ _ _ => Except.ok ⟨1⟩,
    connect := fun _ _ _ _ => Except.ok ⟨1⟩ }

/-- Claim C9 witness: two successful runs differing only in password and
keytab fields emit the same informational event. -/
theorem configure_log_event_noninterference_witness :
    (configure c9ConfigA (fun _ => "") c9World).effects.filter isLogInfo =
      (configure c9ConfigB (fun _ => "") c9World).effects.filter isLogInfo :=
  configure_log_event_noninterference c9ConfigA c9ConfigB
    (fun _ => "") (fun _ => "") c9World c9World
    (by decide) (by decide) (by decide) (by decide) (by decide)

/-! ## Claim C10 -/

/-- Claim C10: whitespace compaction is idempotent; it keeps exactly the
non-whitespace characters in their original order; and on a string with no
whitespace character from the stripped set it is the identity. -/
theorem compactBase64Whitespace_idempotent :
    ∀ s : String,
      compactBase64Whitespace (compactBase64Whitespace s) =
        compactBase64Whitespace s ∧
      (compactBase64Whitespace s).data =
        s.data.filter (fun c => !isB64Ws c) ∧
      (s.data.all (fun c => !isB64Ws c) = true →
        compactBase64Whitespace s = s) := by
  intro s
  have hdata : (compactBase64Whitespace s).data =
      s.data.filter (fun c => !isB64Ws c) := by
    rw [compact_eq_filter]
  have hid : ∀ t : String, t.data.any isB64Ws = false →
      compactBase64Whitespace t = t := by
    intro t ht
    unfold compactBase64Whitespace
    simp [ht]
  have hfilter : ∀ l : List Char,
      (l.filter (fun c => !isB64Ws c)).any isB64Ws = false := by
    intro l
    induction l with
    | nil => rfl
    | cons c cs ih =>
      by_cases hc : isB64Ws c <;> simp [List.filter_cons, hc, ih]
  refine ⟨?_, hdata, ?_⟩
  · apply hid
    rw [hdata]
    exact hfilter s.data
  · intro hall
    apply hid
    rcases Bool.eq_false_or_eq_true (s.data.any isB64Ws) with h | h
    · exfalso
      rcases List.any_eq_true.mp h with ⟨c, hc, hw⟩
      have := List.all_eq_true.mp hall c hc
      simp [hw] at this
    · exact h

/-- Claim C10 witness: the idempotence and identity statements evaluated on
a whitespace-free string. -/
theorem compactBase64Whitespace_idempotent_witness :
    ("BQIAAABH".data.all (fun c => !isB64Ws c) = true) ∧
    compactBase64Whitespace "BQIAAABH" = "BQIAAABH" :=
  ⟨by decide, (compactBase64Whitespace_idempotent "BQIAAABH").2.2 (by decide)⟩

end FreeIPA
